import Mathlib

/-!
Verification of the client-side state-synchronization core of the
MonolithLauncher UI: bounded ring-buffer logs, the busy-key tracker,
the install progress tracker, the event router, the telemetry poller
and the Modrinth catalog search/install orchestrator, shallowly
embedded from the TypeScript source.
-/

namespace Monolith

/-! ### Ring buffer (capacity-bounded append)

The source bounds each log buffer by `next.length > cap ? next.slice(-cap)
: next`; `slice(-cap)` keeps the last `cap` elements. -/

/-- Last `n` elements of a list (JS `slice(-n)`). -/
def takeLast (n : Nat) (xs : List α) : List α :=
  xs.drop (xs.length - n)

/-- `boundedAppend cap xs x` pushes `x` and keeps only the last `cap`
elements, exactly as the source's push-then-slice idiom. -/
def boundedAppend (cap : Nat) (xs : List α) (x : α) : List α :=
  if cap < (xs ++ [x]).length then takeLast cap (xs ++ [x]) else xs ++ [x]

theorem takeLast_eq_self {n : Nat} {xs : List α} (h : xs.length ≤ n) :
    takeLast n xs = xs := by
  unfold takeLast
  have : xs.length - n = 0 := by omega
  simp [this]

theorem length_takeLast (n : Nat) (xs : List α) :
    (takeLast n xs).length = min n xs.length := by
  unfold takeLast
  simp [List.length_drop]
  omega

theorem boundedAppend_eq_takeLast (cap : Nat) (xs : List α) (x : α) :
    boundedAppend cap xs x = takeLast cap (xs ++ [x]) := by
  unfold boundedAppend
  by_cases h : cap < (xs ++ [x]).length
  · rw [if_pos h]
  · rw [if_neg h]
    exact (takeLast_eq_self (Nat.le_of_not_lt h)).symm

theorem takeLast_append_right {n : Nat} (xs ys : List α) (h : n ≤ ys.length) :
    takeLast n (xs ++ ys) = takeLast n ys := by
  unfold takeLast
  rw [List.length_append,
    show xs.length + ys.length - n = xs.length + (ys.length - n) by omega,
    ← List.drop_drop, List.drop_left]

theorem takeLast_drop {n m : Nat} (l : List α) (h : m + n ≤ l.length) :
    takeLast n (l.drop m) = takeLast n l := by
  unfold takeLast
  rw [List.length_drop, List.drop_drop]
  congr 1
  omega

theorem takeLast_takeLast_append (cap : Nat) (xs ys : List α) :
    takeLast cap (takeLast cap xs ++ ys) = takeLast cap (xs ++ ys) := by
  by_cases h : xs.length ≤ cap
  · rw [takeLast_eq_self h]
  · push_neg at h
    have h1 : takeLast cap xs ++ ys = (xs ++ ys).drop (xs.length - cap) := by
      unfold takeLast
      rw [List.drop_append_of_le_length (by omega)]
    rw [h1, takeLast_drop]
    rw [List.length_append]
    omega

theorem foldl_boundedAppend (cap : Nat) (init : List α) (ms : List α)
    (h : init.length ≤ cap) :
    ms.foldl (boundedAppend cap) init = takeLast cap (init ++ ms) := by
  induction ms generalizing init with
  | nil => simpa using (takeLast_eq_self h).symm
  | cons x rest ih =>
    have hlen : (boundedAppend cap init x).length ≤ cap := by
      rw [boundedAppend_eq_takeLast, length_takeLast]
      omega
    rw [List.foldl_cons, ih _ hlen, boundedAppend_eq_takeLast,
      takeLast_takeLast_append]
    simp

/-! ### Log channels

From the launcher provider: every append stamps the wall-clock time and
skips empty messages; buffers are capped at 400. A timestamp string is
passed explicitly here, standing for the stamped arrival time. -/

/-- Rendered log line: the source formats `` `[${timestamp()}] ${message}` ``. -/
def stampLine (ts msg : String) : String :=
  "[" ++ ts ++ "] " ++ msg

/-- `appendLauncherLog` from the provider: empty messages are a no-op,
otherwise the stamped line is pushed and the buffer capped at 400.
The game log and per-instance logs use the identical logic. -/
def appendLauncherLog (ts msg : String) (buf : List String) : List String :=
  if msg = "" then buf else boundedAppend 400 buf (stampLine ts msg)

/-- A whole sequence of appends, each entry a (timestamp, message) pair. -/
def appendLogSeq (entries : List (String × String)) (buf : List String) :
    List String :=
  entries.foldl (fun b e => appendLauncherLog e.1 e.2 b) buf

theorem appendLogSeq_eq_foldl (entries : List (String × String))
    (buf : List String) (hne : ∀ e ∈ entries, e.2 ≠ "") :
    appendLogSeq entries buf =
      (entries.map (fun e => stampLine e.1 e.2)).foldl (boundedAppend 400) buf := by
  induction entries generalizing buf with
  | nil => rfl
  | cons e rest ih =>
    have he : e.2 ≠ "" := hne e (by simp)
    have hrest : ∀ x ∈ rest, x.2 ≠ "" := fun x hx => hne x (by simp [hx])
    simp only [appendLogSeq, List.foldl_cons, List.map_cons]
    rw [← appendLogSeq, ih _ hrest, appendLauncherLog, if_neg he]

theorem takeLast_map (n : Nat) (f : α → β) (l : List α) :
    takeLast n (l.map f) = (takeLast n l).map f := by
  unfold takeLast
  rw [List.length_map, List.map_drop]

/-- C2: For every sequence of N > 400 appends to a log channel, the
resulting buffer is exactly the timestamped forms of the last 400
appended lines, in order, and has length 400; in particular appending
401 lines "L0".."L400" to the empty launcher log leaves exactly the
stamped "L1".."L400". -/
theorem bounded_log_keeps_last_400 (entries : List (String × String))
    (buf : List String) (hbuf : buf.length ≤ 400)
    (hne : ∀ e ∈ entries, e.2 ≠ "") (hlen : 400 < entries.length) :
    appendLogSeq entries buf
        = (takeLast 400 entries).map (fun e => stampLine e.1 e.2)
    ∧ (appendLogSeq entries buf).length = 400
    ∧ (∀ ts : Nat → String,
        appendLogSeq ((List.range 401).map fun i => (ts i, "L" ++ Nat.repr i)) []
          = ((List.range 401).drop 1).map
              fun i => stampLine (ts i) ("L" ++ Nat.repr i)) := by
  have hmain : ∀ (es : List (String × String)) (b : List String),
      b.length ≤ 400 → (∀ e ∈ es, e.2 ≠ "") → 400 < es.length →
      appendLogSeq es b = (takeLast 400 es).map (fun e => stampLine e.1 e.2) := by
    intro es b hb hn hl
    rw [appendLogSeq_eq_foldl es b hn, foldl_boundedAppend 400 b _ hb,
      takeLast_append_right _ _ (by simp; omega), takeLast_map]
  refine ⟨hmain entries buf hbuf hne hlen, ?_, ?_⟩
  · rw [hmain entries buf hbuf hne hlen]
    rw [List.length_map, length_takeLast]
    omega
  · intro ts
    have hn : ∀ e ∈ (List.range 401).map fun i => (ts i, "L" ++ Nat.repr i),
        e.2 ≠ "" := by
      intro e he
      simp only [List.mem_map] at he
      obtain ⟨i, _, rfl⟩ := he
      intro hcon
      have hcon2 : "L" ++ Nat.repr i = "" := hcon
      have h3 := congrArg String.length hcon2
      rw [String.length_append] at h3
      have h4 : ("L" : String).length = 1 := rfl
      have h5 : ("" : String).length = 0 := rfl
      omega
    rw [hmain _ [] (by simp) hn (by simp)]
    unfold takeLast
    rw [List.length_map, List.length_range]
    rw [show 401 - 400 = 1 from rfl, List.map_drop, List.map_map]
    rfl

/-- Witness for C2 at the spec's own scenario: 401 nonempty lines. -/
theorem bounded_log_keeps_last_400_witness :
    (([] : List String).length ≤ 400
      ∧ (∀ e ∈ (List.range 401).map
            (fun i => (Nat.repr i, "L" ++ Nat.repr i)), e.2 ≠ "")
      ∧ 400 < ((List.range 401).map
            (fun i => (Nat.repr i, "L" ++ Nat.repr i))).length)
    ∧ (appendLogSeq ((List.range 401).map
          (fun i => (Nat.repr i, "L" ++ Nat.repr i))) []
        = (takeLast 400 ((List.range 401).map
            (fun i => (Nat.repr i, "L" ++ Nat.repr i)))).map
              (fun e => stampLine e.1 e.2)
      ∧ (appendLogSeq ((List.range 401).map
          (fun i => (Nat.repr i, "L" ++ Nat.repr i))) []).length = 400
      ∧ (∀ ts : Nat → String,
          appendLogSeq ((List.range 401).map fun i => (ts i, "L" ++ Nat.repr i)) []
            = ((List.range 401).drop 1).map
                fun i => stampLine (ts i) ("L" ++ Nat.repr i))) := by
  have h1 : ∀ e ∈ (List.range 401).map
      (fun i => (Nat.repr i, "L" ++ Nat.repr i)), e.2 ≠ "" := by
    intro e he
    simp only [List.mem_map] at he
    obtain ⟨i, _, rfl⟩ := he
    intro hcon
    have hcon2 : "L" ++ Nat.repr i = "" := hcon
    have h3 := congrArg String.length hcon2
    rw [String.length_append] at h3
    have h4 : ("L" : String).length = 1 := rfl
    have h5 : ("" : String).length = 0 := rfl
    omega
  have h2 : 400 < ((List.range 401).map
      (fun i => (Nat.repr i, "L" ++ Nat.repr i))).length := by simp
  exact ⟨⟨by simp, h1, h2⟩,
    bounded_log_keeps_last_400 _ [] (by simp) h1 h2⟩

/-! ### JS truthiness coercions

The provider reads event payload fields with `x || default` (empty
string and 0 are falsy) and `x ?? null`. -/

/-- `x || default` for a possibly-absent string field. -/
def jsOrStr : Option String → String → String
  | some s, d => if s = "" then d else s
  | none, d => d

/-- `x || default` for a possibly-absent numeric field (0 is falsy). -/
def jsOrNat : Option Nat → Nat → Nat
  | some n, d => if n = 0 then d else n
  | none, d => d

/-- Truthiness of a possibly-absent string (`undefined` and `""` are
falsy). -/
def truthy : Option String → Bool
  | some s => !(s == "")
  | none => false

/-- `a || b` where both operands are possibly-absent strings, as in
`payload.instance_id || payload.instanceId`. -/
def jsOrOpt (a b : Option String) : Option String :=
  match a with
  | some s => if s = "" then b else some s
  | none => b

/-! ### Progress tracker (`install:progress` / `install:done` /
`install:error` handlers of the launcher provider) -/

/-- The wholesale snapshot built by the `install:progress` handler. -/
structure ProgressSnapshot where
  stage : String
  message : String
  current : Nat
  total : Option Nat
  detail : Option String
deriving DecidableEq

/-- Raw `install:progress` payload; every field may be absent. -/
structure ProgressPayload where
  stage : Option String
  message : Option String
  current : Option Nat
  total : Option Nat
  detail : Option String
deriving DecidableEq

/-- The provider state touched by the install-event handlers. -/
structure InstallUiState where
  installing : Bool
  installProgress : Option ProgressSnapshot
  installDetails : List String
deriving DecidableEq

/-- A user-facing status emission (`setStatus(message, variant)`). -/
structure StatusLine where
  message : String
  isError : Bool
deriving DecidableEq

/-- Snapshot constructed by the `install:progress` handler: defaults
`"install"`, `"Working"`, `0` replace falsy fields; `total` and
`detail` keep null via `??`. -/
def snapshotOf (p : ProgressPayload) : ProgressSnapshot :=
  { stage := jsOrStr p.stage "install"
    message := jsOrStr p.message "Working"
    current := jsOrNat p.current 0
    total := p.total
    detail := p.detail }

/-- The `install:progress` listener: replaces the snapshot wholesale,
sets `installing`, clears the detail log on a `prepare`/`current=0`
event, then appends a truthy `detail` to the 80-capped detail log. -/
def handleInstallProgress (p : ProgressPayload) (s : InstallUiState) :
    InstallUiState :=
  let s1 : InstallUiState :=
    { s with installProgress := some (snapshotOf p), installing := true }
  let s2 : InstallUiState :=
    if p.stage = some "prepare" ∧ p.current = some 0 then
      { s1 with installDetails := [] }
    else s1
  match p.detail with
  | some d =>
    if d = "" then s2
    else { s2 with installDetails := boundedAppend 80 s2.installDetails d }
  | none => s2

/-- The terminal state both `install:done` and `install:error` leave. -/
def idleInstall : InstallUiState :=
  { installing := false, installProgress := none, installDetails := [] }

/-- The `install:done` listener (the prior state is irrelevant; the
handler also refreshes the config snapshot, a command-channel call not
modelled here). -/
def handleInstallDone (_s : InstallUiState) :
    InstallUiState × List StatusLine :=
  (idleInstall, [⟨"Instance created.", false⟩])

/-- The `install:error` listener: `event?.payload || "Install failed."`. -/
def handleInstallError (payload : Option String) (_s : InstallUiState) :
    InstallUiState × List StatusLine :=
  (idleInstall, [⟨jsOrStr payload "Install failed.", true⟩])

theorem handleInstallProgress_eq (p : ProgressPayload) (s : InstallUiState) :
    handleInstallProgress p s =
      { installing := true
        installProgress := some (snapshotOf p)
        installDetails :=
          (let base := if p.stage = some "prepare" ∧ p.current = some 0
            then [] else s.installDetails
          match p.detail with
          | some d => if d = "" then base else boundedAppend 80 base d
          | none => base) } := by
  unfold handleInstallProgress
  cases hd : p.detail with
  | none =>
    by_cases hr : p.stage = some "prepare" ∧ p.current = some 0 <;>
      simp [hr]
  | some d =>
    by_cases hr : p.stage = some "prepare" ∧ p.current = some 0 <;>
      by_cases he : d = "" <;> simp [hr, he]

/-- C3: `install:done` and `install:error` both yield the same terminal
idle state (no snapshot, not installing, empty detail log) regardless of
the prior state, and emit exactly one status: success for done; for
error the event payload, or the fixed fallback when the payload is
absent or empty. -/
theorem install_terminal_events_reset (s t : InstallUiState)
    (payload : Option String) (m : String) (hm : m ≠ "") :
    (handleInstallDone s).1 = idleInstall
    ∧ (handleInstallError payload s).1 = idleInstall
    ∧ idleInstall.installing = false
    ∧ idleInstall.installProgress = none
    ∧ idleInstall.installDetails = []
    ∧ (handleInstallDone s).1 = (handleInstallDone t).1
    ∧ (handleInstallError payload s).1 = (handleInstallDone t).1
    ∧ (handleInstallDone s).2 = [⟨"Instance created.", false⟩]
    ∧ (handleInstallError (some m) s).2 = [⟨m, true⟩]
    ∧ (handleInstallError none s).2 = [⟨"Install failed.", true⟩]
    ∧ (handleInstallError (some "") s).2 = [⟨"Install failed.", true⟩] := by
  refine ⟨rfl, rfl, rfl, rfl, rfl, rfl, rfl, rfl, ?_, rfl, by
    simp [handleInstallError, jsOrStr]⟩
  simp [handleInstallError, jsOrStr, hm]

/-- Witness for C3 at a concrete non-idle prior state. -/
theorem install_terminal_events_reset_witness :
    ("boom" ≠ ""
    ∧ (handleInstallDone ⟨true, some ⟨"install", "Working", 3, none, none⟩,
        ["d1"]⟩).1 = idleInstall)
    ∧ (handleInstallError (some "boom") ⟨true,
        some ⟨"install", "Working", 3, none, none⟩, ["d1"]⟩).2
      = [⟨"boom", true⟩] := by
  refine ⟨⟨by decide, ?_⟩, ?_⟩
  · exact (install_terminal_events_reset
      ⟨true, some ⟨"install", "Working", 3, none, none⟩, ["d1"]⟩
      idleInstall (some "boom") "boom" (by decide)).1
  · exact (install_terminal_events_reset
      ⟨true, some ⟨"install", "Working", 3, none, none⟩, ["d1"]⟩
      idleInstall (some "boom") "boom" (by decide)).2.2.2.2.2.2.2.2.1

/-- C5: every `install:progress` event replaces the snapshot wholesale
(the new snapshot is a function of the payload alone, never merged with
the prior one); a `prepare`/`current=0` event resets the detail log so
that its own detail, if truthy, is the only entry; otherwise a truthy
detail is appended to the 80-capped detail log with oldest-first
eviction. -/
theorem install_progress_wholesale (p : ProgressPayload)
    (s t : InstallUiState) :
    (handleInstallProgress p s).installProgress = some (snapshotOf p)
    ∧ (handleInstallProgress p s).installProgress
        = (handleInstallProgress p t).installProgress
    ∧ (handleInstallProgress p s).installing = true
    ∧ (p.stage = some "prepare" → p.current = some 0 →
        (handleInstallProgress p s).installDetails =
          (match p.detail with
          | some d => if d = "" then [] else [d]
          | none => []))
    ∧ (¬ (p.stage = some "prepare" ∧ p.current = some 0) →
        (handleInstallProgress p s).installDetails =
          (match p.detail with
          | some d => if d = "" then s.installDetails
              else boundedAppend 80 s.installDetails d
          | none => s.installDetails)) := by
  rw [handleInstallProgress_eq, handleInstallProgress_eq]
  refine ⟨rfl, rfl, rfl, ?_, ?_⟩
  · intro h1 h2
    simp only [h1, h2, and_self, if_true, if_pos]
    cases p.detail with
    | none => rfl
    | some d =>
      by_cases he : d = "" <;> simp [he, boundedAppend, takeLast]
  · intro hne
    simp only [if_neg hne]

/-- Witness for C5: a concrete prepare/current=0 event over a dirty
prior state resets the detail log to its own detail, and a concrete
mid-operation event appends its detail to the prior log. -/
theorem install_progress_wholesale_witness :
    (handleInstallProgress
        ⟨some "prepare", some "Preparing", some 0, some 5, some "step"⟩
        ⟨true, some ⟨"install", "Working", 9, none, none⟩, ["old1", "old2"]⟩
      ).installDetails = ["step"]
    ∧ (handleInstallProgress
        ⟨some "download", some "Downloading", some 3, some 5, some "file"⟩
        ⟨true, some ⟨"install", "Working", 9, none, none⟩, ["old1", "old2"]⟩
      ).installDetails = ["old1", "old2", "file"] := by
  constructor
  · have h := (install_progress_wholesale
      ⟨some "prepare", some "Preparing", some 0, some 5, some "step"⟩
      ⟨true, some ⟨"install", "Working", 9, none, none⟩, ["old1", "old2"]⟩
      idleInstall).2.2.2.1 rfl rfl
    rw [h]
    decide
  · have h := (install_progress_wholesale
      ⟨some "download", some "Downloading", some 3, some 5, some "file"⟩
      ⟨true, some ⟨"install", "Working", 9, none, none⟩, ["old1", "old2"]⟩
      idleInstall).2.2.2.2 (by simp)
    rw [h]
    simp [boundedAppend, takeLast]

/-! ### Event router: `instance:log` and `microsoft:code` guards -/

/-- Raw `instance:log` payload; the handler accepts either
`instance_id` or `instanceId`, and requires a truthy id and line. -/
structure InstanceLogPayload where
  instance_id : Option String
  instanceId : Option String
  line : Option String
  stream : Option String
deriving DecidableEq

/-- The log-channel containers of the launcher provider. -/
structure LogsState where
  launcher : List String
  game : List String
  instances : String → List String

/-- `appendGameLog` of the provider, acting on the whole container. -/
def appendGameToState (ts msg : String) (s : LogsState) : LogsState :=
  if msg = "" then s
  else { s with game := boundedAppend 400 s.game (stampLine ts msg) }

/-- `appendInstanceLog` of the provider: no-op on an empty id or
message, else a 400-capped append to that instance's buffer. -/
def appendInstanceToState (ts id msg : String) (s : LogsState) : LogsState :=
  if id = "" ∨ msg = "" then s
  else
    { s with instances := fun k =>
        if k = id then boundedAppend 400 (s.instances id) (stampLine ts msg)
        else s.instances k }

/-- The `instance:log` listener: resolves the id from
`instance_id || instanceId`, drops the event when id or line is falsy,
else prefixes stderr lines and appends to the instance buffer and to
the aggregated game log. -/
def handleInstanceLogEvent (ts : String) (p : InstanceLogPayload)
    (s : LogsState) : LogsState :=
  let instId := jsOrOpt p.instance_id p.instanceId
  if truthy instId = false ∨ truthy p.line = false then s
  else
    let pre := if p.stream = some "stderr" then "[stderr] " else ""
    let msg := pre ++ p.line.getD ""
    appendGameToState ts msg (appendInstanceToState ts (instId.getD "") msg s)

/-- The `microsoft:code` listener issues the
`complete_microsoft_login` exchange only for a truthy code; a falsy
payload returns before any command or state change. -/
def microsoftCodeExchangeIssued (code : Option String) : Bool :=
  truthy code

/-- Counterexample to C8 as stated: the `install:progress` payload's
required fields (stage, message, current) are not validated by its
handler; an event missing all of them is not dropped — defaults are
substituted and the event is applied, flipping `installing` and
installing a snapshot, so the state does change. -/
theorem malformed_progress_event_not_dropped :
    ¬ (handleInstallProgress ⟨none, none, none, none, none⟩ idleInstall
        = idleInstall) := by
  decide

/-- C8 (amended): handlers that validate required fields drop malformed
events silently with no state change and without throwing (all handlers
are total functions): an `instance:log` event lacking a truthy
instance id or line performs no append anywhere, and a `microsoft:code`
event lacking a truthy code issues no exchange command; the
`install:progress` handler instead substitutes defaults ("install",
"Working", 0) for missing fields and applies the event. -/
theorem malformed_event_routing (ts : String) (p : InstanceLogPayload)
    (s : LogsState) (q : ProgressPayload) (u : InstallUiState)
    (hp : truthy (jsOrOpt p.instance_id p.instanceId) = false
      ∨ truthy p.line = false) :
    handleInstanceLogEvent ts p s = s
    ∧ (∀ code : Option String, truthy code = false →
        microsoftCodeExchangeIssued code = false)
    ∧ (handleInstallProgress q u).installProgress = some (snapshotOf q)
    ∧ snapshotOf ⟨none, none, none, none, none⟩
        = ⟨"install", "Working", 0, none, none⟩ := by
  refine ⟨?_, fun code hc => hc, ?_, rfl⟩
  · unfold handleInstanceLogEvent
    rw [if_pos hp]
  · exact (install_progress_wholesale q u u).1

/-- Witness for C8 (amended) at a concrete payload missing its line. -/
theorem malformed_event_routing_witness :
    (truthy (jsOrOpt (some "inst-1")
        (none : Option String)) = false
      ∨ truthy (none : Option String) = false)
    ∧ handleInstanceLogEvent "12:00:00"
        ⟨some "inst-1", none, none, some "stdout"⟩
        ⟨[], [], fun _ => []⟩
      = ⟨[], [], fun _ => []⟩ := by
  refine ⟨Or.inr (by decide), ?_⟩
  exact (malformed_event_routing "12:00:00"
    ⟨some "inst-1", none, none, some "stdout"⟩
    ⟨[], [], fun _ => []⟩ ⟨none, none, none, none, none⟩ idleInstall
    (Or.inr (by decide))).1

/-! ### Busy-key tracker (`modrinthBusy` in the overview tabs) -/

/-- Content categories of the Modrinth browsing dialog. -/
inductive ModrinthKind where
  | mods
  | resources
  | shaders
  | datapacks
deriving DecidableEq

/-- The literal string of a `ModrinthKind`, as used in busy keys. -/
def kindLabel : ModrinthKind → String
  | .mods => "mods"
  | .resources => "resources"
  | .shaders => "shaders"
  | .datapacks => "datapacks"

/-- The operation tag held by a busy key. -/
inductive OpTag where
  | installing
  | uninstalling
deriving DecidableEq

/-- The `modrinthBusy` object: a map from composite key to tag. -/
def BusyMap := String → Option OpTag

/-- The initial (and reset) busy map. -/
def emptyBusy : BusyMap := fun _ => none

/-- Object spread `{ ...prev, [key]: tag }`. -/
def busySet (m : BusyMap) (key : String) (tag : OpTag) : BusyMap :=
  fun k => if k = key then some tag else m k

/-- `delete next[key]` after copying, as in the handlers' finally
blocks. -/
def busyDelete (m : BusyMap) (key : String) : BusyMap :=
  fun k => if k = key then none else m k

/-- `` `${kind}:${project.project_id}` ``. -/
def modrinthKey (kind : ModrinthKind) (projectId : String) : String :=
  kindLabel kind ++ ":" ++ projectId

/-- Result of the busy-key guard at the top of
`handleModrinthInstall` / `handleModrinthUninstall`: `issued` records
whether the backend install/uninstall request is reached. -/
structure BeginResult where
  busy : BusyMap
  issued : Bool

/-- `if (modrinthBusy[key]) return;` then
`setModrinthBusy(prev => ({ ...prev, [key]: tag }))` and the backend
call. -/
def tryBeginOp (m : BusyMap) (key : String) (tag : OpTag) : BeginResult :=
  if (m key).isSome then ⟨m, false⟩ else ⟨busySet m key tag, true⟩

/-- The finally block of both handlers: the key is removed
unconditionally. -/
def endOp (m : BusyMap) (key : String) : BusyMap :=
  busyDelete m key

/-- C1: once `tryBeginOp` has succeeded for a key, the key holds the
tag and any further `tryBeginOp` on a map where that key is busy fails,
issues no backend request and leaves the map unchanged; after `endOp`
on any map, a subsequent `tryBeginOp` for the key succeeds; operations
on a key never touch a distinct key. -/
theorem busy_key_exclusivity (m : BusyMap) (key : String) (t t' : OpTag)
    (h : (tryBeginOp m key t).issued = true) :
    (tryBeginOp m key t).busy key = some t
    ∧ (∀ m' : BusyMap, (m' key).isSome →
        (tryBeginOp m' key t').issued = false ∧ (tryBeginOp m' key t').busy = m')
    ∧ (∀ m' : BusyMap, (tryBeginOp (endOp m' key) key t').issued = true
        ∧ (tryBeginOp (endOp m' key) key t').busy key = some t')
    ∧ (∀ k', k' ≠ key →
        (tryBeginOp m key t).busy k' = m k'
        ∧ endOp m key k' = m k'
        ∧ (∀ m' : BusyMap, (tryBeginOp m' key t').busy k' = m' k')) := by
  have hnone : (m key).isSome = false := by
    by_contra hc
    simp only [Bool.not_eq_false] at hc
    simp [tryBeginOp, hc] at h
  refine ⟨?_, ?_, ?_, ?_⟩
  · simp [tryBeginOp, hnone, busySet]
  · intro m' hm'
    constructor <;> simp [tryBeginOp, hm']
  · intro m'
    have hend : ((endOp m' key) key).isSome = false := by
      simp [endOp, busyDelete]
    constructor <;> simp [tryBeginOp, hend, busySet]
  · intro k' hk
    refine ⟨?_, ?_, ?_⟩
    · simp [tryBeginOp, hnone, busySet, hk]
    · simp [endOp, busyDelete, hk]
    · intro m'
      by_cases hb : (m' key).isSome <;> simp [tryBeginOp, hb, busySet, hk]

/-- Witness for C1 at the spec's duplicate-install scenario: key
`"mods:abc123"` on the empty busy map. -/
theorem busy_key_exclusivity_witness :
    ((tryBeginOp emptyBusy "mods:abc123" OpTag.installing).issued = true)
    ∧ (tryBeginOp emptyBusy "mods:abc123" OpTag.installing).busy "mods:abc123"
        = some OpTag.installing
    ∧ (tryBeginOp (tryBeginOp emptyBusy "mods:abc123" OpTag.installing).busy
        "mods:abc123" OpTag.installing).issued = false
    ∧ (tryBeginOp (endOp
        (tryBeginOp emptyBusy "mods:abc123" OpTag.installing).busy
        "mods:abc123") "mods:abc123" OpTag.installing).issued = true := by
  have h := busy_key_exclusivity emptyBusy "mods:abc123"
    OpTag.installing OpTag.installing (by decide)
  refine ⟨by decide, h.1, ?_, ?_⟩
  · exact (h.2.1 (tryBeginOp emptyBusy "mods:abc123" OpTag.installing).busy
      (by decide)).1
  · exact (h.2.2.1
      (tryBeginOp emptyBusy "mods:abc123" OpTag.installing).busy).1

/-! ### Telemetry poller (console-tab polling loop) -/

/-- Poller state local to the active instance view. -/
structure TelemetryState where
  isRunning : Bool
  memoryUsage : Option Nat
  memoryHistory : List Nat
deriving DecidableEq

/-- One resolved poll tick. `active` is the effect-scope flag the
cleanup flips to false when the console view goes inactive or the
target instance changes; `outcome` is the `get_instance_metrics`
request: `.error ()` a rejected request, `.ok none` a response without
a numeric `rss_mb`, `.ok (some rss)` a numeric reading (readings are
modelled as naturals). -/
def pollTick (active : Bool) (outcome : Except Unit (Option Nat))
    (s : TelemetryState) : TelemetryState :=
  match outcome with
  | .ok metrics =>
    if active = false then s
    else
      match metrics with
      | some rss =>
        { isRunning := true
          memoryUsage := some rss
          memoryHistory := boundedAppend 80 s.memoryHistory rss }
      | none => { s with isRunning := false, memoryUsage := none }
  | .error _ =>
    if active = false then s
    else { s with memoryUsage := none }

/-- Counterexample to C6 as stated: a failed metrics request does not
mark the instance "not running" — the catch branch only clears the
memory-usage value, leaving `isRunning` at its prior value `true`. -/
theorem telemetry_failure_keeps_running_flag :
    ¬ ((pollTick true (Except.error ())
        ⟨true, some 100, [100]⟩).isRunning = false) := by
  decide

/-- C6 (amended): a successful metrics response with a numeric reading
appends it to the 80-capped history, records it and marks the instance
running; a successful response with no reading marks it not running and
clears the usage value without touching the history; a failed request
clears only the usage value, leaving both the history and the running
flag unchanged. -/
theorem telemetry_poll_tick_spec (s : TelemetryState) (rss : Nat) :
    pollTick true (Except.ok (some rss)) s
      = ⟨true, some rss, boundedAppend 80 s.memoryHistory rss⟩
    ∧ pollTick true (Except.ok none) s
      = { s with isRunning := false, memoryUsage := none }
    ∧ pollTick true (Except.error ()) s
      = { s with memoryUsage := none }
    ∧ (pollTick true (Except.error ()) s).memoryHistory = s.memoryHistory
    ∧ (pollTick true (Except.error ()) s).isRunning = s.isRunning := by
  exact ⟨rfl, rfl, rfl, rfl, rfl⟩

/-- C7: a metrics response arriving after its poll scope ended (the
cleanup set `active` to false) is discarded wholesale: nothing is
appended to any history and neither the running flag nor the usage
value changes. -/
theorem telemetry_stale_response_discarded
    (outcome : Except Unit (Option Nat)) (s : TelemetryState) :
    pollTick false outcome s = s := by
  cases outcome <;> rfl

/-! ### Catalog search orchestrator (Modrinth dialog state) -/

/-- Sort orders of the Modrinth search. -/
inductive ModrinthSort where
  | relevance
  | downloads
  | follows
  | newest
  | updated
deriving DecidableEq

/-- Client/server environment flags of the filter set. -/
structure EnvFilters where
  client : Bool
  server : Bool
deriving DecidableEq

/-- The structured filter set of one category. -/
structure ModrinthFilters where
  categories : List String
  loaders : List String
  showAllVersions : Bool
  environments : EnvFilters
  openSourceOnly : Bool
  hideInstalled : Bool
deriving DecidableEq

/-- A search hit; only the fields this core reads. -/
structure ModrinthProjectHit where
  project_id : String
  title : String
deriving DecidableEq

/-- Per-category search state. -/
structure ModrinthCatState where
  query : String
  results : List ModrinthProjectHit
  loading : Bool
  error : Option String
  sort : ModrinthSort
  filters : ModrinthFilters
deriving DecidableEq

/-- The `modrinthState` record, one state per category. -/
def ModrinthStateMap := ModrinthKind → ModrinthCatState

/-- `updateModrinthState`: spread-patches one category, leaving the
others untouched. -/
def updateKind (st : ModrinthStateMap) (kind : ModrinthKind)
    (f : ModrinthCatState → ModrinthCatState) : ModrinthStateMap :=
  fun k => if k = kind then f (st k) else st k

/-- The patch issued before the search request:
`{ loading: true, error: null, query }`. -/
def searchBegin (kind : ModrinthKind) (q : String) (st : ModrinthStateMap) :
    ModrinthStateMap :=
  updateKind st kind fun c => { c with loading := true, error := none, query := q }

/-- The success patch: `{ results: results || [], loading: false }`. -/
def searchSuccess (kind : ModrinthKind)
    (results : Option (List ModrinthProjectHit)) (st : ModrinthStateMap) :
    ModrinthStateMap :=
  updateKind st kind fun c => { c with results := results.getD [], loading := false }

/-- The failure patch:
`{ error: err?.toString?.() || "Modrinth search failed.", loading: false }`. -/
def searchFailure (kind : ModrinthKind) (raw : Option String)
    (st : ModrinthStateMap) : ModrinthStateMap :=
  updateKind st kind fun c =>
    { c with error := some (jsOrStr raw "Modrinth search failed."), loading := false }

/-- A whole `handleModrinthSearch` run: begin patch, then the success
or failure patch according to the backend outcome. -/
def modrinthSearchRun (kind : ModrinthKind) (q : String)
    (outcome : Except (Option String) (Option (List ModrinthProjectHit)))
    (st : ModrinthStateMap) : ModrinthStateMap :=
  match outcome with
  | .ok results => searchSuccess kind results (searchBegin kind q st)
  | .error raw => searchFailure kind raw (searchBegin kind q st)

/-- C4: a search sets the category's loading flag and clears its error
before the request without touching its results; on success the results
become exactly the response (full replacement) with loading false and
error still clear; on failure the error is set and loading false while
the results keep the prior value; no phase ever touches another
category. -/
theorem modrinth_search_lifecycle (kind k' : ModrinthKind) (q : String)
    (outcome : Except (Option String) (Option (List ModrinthProjectHit)))
    (st : ModrinthStateMap) (r : List ModrinthProjectHit)
    (raw : Option String) (hk : k' ≠ kind) :
    (searchBegin kind q st kind).loading = true
    ∧ (searchBegin kind q st kind).error = none
    ∧ (searchBegin kind q st kind).results = (st kind).results
    ∧ (modrinthSearchRun kind q (Except.ok (some r)) st kind).results = r
    ∧ (modrinthSearchRun kind q (Except.ok (some r)) st kind).loading = false
    ∧ (modrinthSearchRun kind q (Except.ok (some r)) st kind).error = none
    ∧ (modrinthSearchRun kind q (Except.error raw) st kind).results
        = (st kind).results
    ∧ (modrinthSearchRun kind q (Except.error raw) st kind).loading = false
    ∧ (modrinthSearchRun kind q (Except.error raw) st kind).error
        = some (jsOrStr raw "Modrinth search failed.")
    ∧ searchBegin kind q st k' = st k'
    ∧ modrinthSearchRun kind q outcome st k' = st k' := by
  have hupd : ∀ (f : ModrinthCatState → ModrinthCatState),
      updateKind st kind f kind = f (st kind) := by
    intro f
    simp [updateKind]
  have hupd' : ∀ (st' : ModrinthStateMap)
      (f : ModrinthCatState → ModrinthCatState),
      updateKind st' kind f k' = st' k' := by
    intro st' f
    simp [updateKind, hk]
  refine ⟨?_, ?_, ?_, ?_, ?_, ?_, ?_, ?_, ?_, ?_, ?_⟩
  all_goals
    simp [modrinthSearchRun, searchBegin, searchSuccess, searchFailure,
      updateKind, hk]
  cases outcome <;>
    simp [modrinthSearchRun, searchBegin, searchSuccess, searchFailure,
      updateKind, hk]

/-- Witness for C4: a concrete mods search whose response fully
replaces the prior result set, leaving the resources category alone. -/
theorem modrinth_search_lifecycle_witness :
    (ModrinthKind.resources ≠ ModrinthKind.mods)
    ∧ (modrinthSearchRun ModrinthKind.mods "sodium"
        (Except.ok (some [⟨"AANobbMI", "Sodium"⟩]))
        (fun _ => ⟨"", [⟨"old", "Old"⟩], false, none, ModrinthSort.downloads,
          ⟨[], [], false, ⟨false, false⟩, false, false⟩⟩)
        ModrinthKind.mods).results = [⟨"AANobbMI", "Sodium"⟩]
    ∧ (modrinthSearchRun ModrinthKind.mods "sodium"
        (Except.ok (some [⟨"AANobbMI", "Sodium"⟩]))
        (fun _ => ⟨"", [⟨"old", "Old"⟩], false, none, ModrinthSort.downloads,
          ⟨[], [], false, ⟨false, false⟩, false, false⟩⟩)
        ModrinthKind.resources)
      = ⟨"", [⟨"old", "Old"⟩], false, none, ModrinthSort.downloads,
          ⟨[], [], false, ⟨false, false⟩, false, false⟩⟩ := by
  have h := modrinth_search_lifecycle ModrinthKind.mods ModrinthKind.resources
    "sodium" (Except.ok (some [⟨"AANobbMI", "Sodium"⟩]))
    (fun _ => ⟨"", [⟨"old", "Old"⟩], false, none, ModrinthSort.downloads,
      ⟨[], [], false, ⟨false, false⟩, false, false⟩⟩)
    [⟨"AANobbMI", "Sodium"⟩] none (by decide)
  exact ⟨by decide, h.2.2.2.1, h.2.2.2.2.2.2.2.2.2.2⟩

/-! ### Facet construction and filter toggles -/

/-- `toggleFilterValue`: removes the value when present, else appends
it. -/
def toggleFilterValue (values : List String) (value : String) :
    List String :=
  if value ∈ values then values.filter (fun item => item != value)
  else values ++ [value]

/-- `buildModrinthFacets`: one OR-group is pushed per non-empty facet
dimension — categories, loaders (mods only, also encoded as
`categories:`), client environment, server environment,
open-source-only.  `showAllVersions` feeds the game-version request
parameter instead, and `hideInstalled` is applied client-side; neither
contributes a facet group. -/
def buildModrinthFacets (kind : ModrinthKind) (filters : ModrinthFilters) :
    List (List String) :=
  (if filters.categories.length > 0 then
    [filters.categories.map (fun item => "categories:" ++ item)] else [])
  ++ (if kind = ModrinthKind.mods ∧ filters.loaders.length > 0 then
    [filters.loaders.map (fun item => "categories:" ++ item)] else [])
  ++ (if filters.environments.client then
    [["client_side:required", "client_side:optional"]] else [])
  ++ (if filters.environments.server then
    [["server_side:required", "server_side:optional"]] else [])
  ++ (if filters.openSourceOnly then [["open_source:true"]] else [])

/-- Number of non-empty facet dimensions of a filter set. -/
def activeFacetDimCount (kind : ModrinthKind) (filters : ModrinthFilters) :
    Nat :=
  (if filters.categories.length > 0 then 1 else 0)
  + (if kind = ModrinthKind.mods ∧ filters.loaders.length > 0 then 1 else 0)
  + (if filters.environments.client then 1 else 0)
  + (if filters.environments.server then 1 else 0)
  + (if filters.openSourceOnly then 1 else 0)

/-- `resolveModrinthProjectType`. -/
def resolveModrinthProjectType : ModrinthKind → String
  | .mods => "mod"
  | .resources => "resourcepack"
  | .datapacks => "datapack"
  | .shaders => "shader"

/-- The payload handed to the `search_modrinth_projects` command. -/
structure SearchRequest where
  query : String
  projectType : String
  gameVersion : String
  loader : Option String
  limit : Nat
  sort : ModrinthSort
  extraFacets : List (List String)
deriving DecidableEq

/-- The optional overrides `handleModrinthSearch` accepts. -/
structure SearchOptions where
  query : Option String
  sort : Option ModrinthSort
  filters : Option ModrinthFilters

/-- The request `handleModrinthSearch` issues: overrides fall back to
the category's stored state, the query is trimmed, the limit is 10 for
an empty query ("popular" mode) else 16, and the game version is
dropped when `showAllVersions` is on. -/
def searchRequestOf (instVersion : String) (kind : ModrinthKind)
    (st : ModrinthStateMap) (opts : SearchOptions) : SearchRequest :=
  let query := (opts.query.getD (st kind).query).trim
  let sort := opts.sort.getD (st kind).sort
  let filters := opts.filters.getD (st kind).filters
  { query := query
    projectType := resolveModrinthProjectType kind
    gameVersion := if filters.showAllVersions then "" else instVersion
    loader := none
    limit := if query.length = 0 then 10 else 16
    sort := sort
    extraFacets := buildModrinthFacets kind filters }

/-- A toggle handler's effect: the patched state and the search request
it immediately issues. -/
structure ToggleResult where
  state : ModrinthStateMap
  request : SearchRequest

/-- Which environment flag a toggle flips. -/
inductive EnvSide where
  | client
  | server
deriving DecidableEq

/-- `{ ...environments, [side]: !environments[side] }`. -/
def toggleEnvSide (e : EnvFilters) : EnvSide → EnvFilters
  | .client => { e with client := !e.client }
  | .server => { e with server := !e.server }

/-- `handleModrinthCategoryToggle`. -/
def handleModrinthCategoryToggle (instVersion : String)
    (kind : ModrinthKind) (value : String) (st : ModrinthStateMap) :
    ToggleResult :=
  let nextFilters := { (st kind).filters with
    categories := toggleFilterValue (st kind).filters.categories value }
  { state := updateKind st kind fun c => { c with filters := nextFilters }
    request := searchRequestOf instVersion kind st ⟨none, none, some nextFilters⟩ }

/-- `handleModrinthLoaderToggle`. -/
def handleModrinthLoaderToggle (instVersion : String)
    (kind : ModrinthKind) (value : String) (st : ModrinthStateMap) :
    ToggleResult :=
  let nextFilters := { (st kind).filters with
    loaders := toggleFilterValue (st kind).filters.loaders value }
  { state := updateKind st kind fun c => { c with filters := nextFilters }
    request := searchRequestOf instVersion kind st ⟨none, none, some nextFilters⟩ }

/-- `handleModrinthEnvironmentToggle`. -/
def handleModrinthEnvironmentToggle (instVersion : String)
    (kind : ModrinthKind) (side : EnvSide) (st : ModrinthStateMap) :
    ToggleResult :=
  let nextFilters := { (st kind).filters with
    environments := toggleEnvSide (st kind).filters.environments side }
  { state := updateKind st kind fun c => { c with filters := nextFilters }
    request := searchRequestOf instVersion kind st ⟨none, none, some nextFilters⟩ }

/-- `handleModrinthOpenSourceToggle`. -/
def handleModrinthOpenSourceToggle (instVersion : String)
    (kind : ModrinthKind) (st : ModrinthStateMap) : ToggleResult :=
  let nextFilters := { (st kind).filters with
    openSourceOnly := !(st kind).filters.openSourceOnly }
  { state := updateKind st kind fun c => { c with filters := nextFilters }
    request := searchRequestOf instVersion kind st ⟨none, none, some nextFilters⟩ }

/-- `handleModrinthShowAllVersionsToggle`. -/
def handleModrinthShowAllVersionsToggle (instVersion : String)
    (kind : ModrinthKind) (st : ModrinthStateMap) : ToggleResult :=
  let nextFilters := { (st kind).filters with
    showAllVersions := !(st kind).filters.showAllVersions }
  { state := updateKind st kind fun c => { c with filters := nextFilters }
    request := searchRequestOf instVersion kind st ⟨none, none, some nextFilters⟩ }

/-- `handleModrinthHideInstalledToggle`. -/
def handleModrinthHideInstalledToggle (instVersion : String)
    (kind : ModrinthKind) (st : ModrinthStateMap) : ToggleResult :=
  let nextFilters := { (st kind).filters with
    hideInstalled := !(st kind).filters.hideInstalled }
  { state := updateKind st kind fun c => { c with filters := nextFilters }
    request := searchRequestOf instVersion kind st ⟨none, none, some nextFilters⟩ }

/-- C9: every filter mutation (category, loader, environment,
open-source, show-all-versions, hide-installed) immediately issues a
search whose facet list is built from the updated filters; the facet
list has exactly one OR-group per non-empty facet dimension (toggling
category "magic" on an empty category set yields the group
`["categories:magic"]`), and the search's returned results fully
replace the prior result set. -/
theorem filter_toggle_issues_search (instVersion value : String)
    (kind : ModrinthKind) (side : EnvSide) (st : ModrinthStateMap)
    (r : List ModrinthProjectHit)
    (hv : value ∉ (st kind).filters.categories) :
    ((handleModrinthCategoryToggle instVersion kind value st).state
        kind).filters.categories = (st kind).filters.categories ++ [value]
    ∧ (handleModrinthCategoryToggle instVersion kind value st).request.extraFacets
        = buildModrinthFacets kind
            (((handleModrinthCategoryToggle instVersion kind value st).state
              kind).filters)
    ∧ (handleModrinthLoaderToggle instVersion kind value st).request.extraFacets
        = buildModrinthFacets kind
            (((handleModrinthLoaderToggle instVersion kind value st).state
              kind).filters)
    ∧ (handleModrinthEnvironmentToggle instVersion kind side st).request.extraFacets
        = buildModrinthFacets kind
            (((handleModrinthEnvironmentToggle instVersion kind side st).state
              kind).filters)
    ∧ (handleModrinthOpenSourceToggle instVersion kind st).request.extraFacets
        = buildModrinthFacets kind
            (((handleModrinthOpenSourceToggle instVersion kind st).state
              kind).filters)
    ∧ (handleModrinthShowAllVersionsToggle instVersion kind st).request.extraFacets
        = buildModrinthFacets kind
            (((handleModrinthShowAllVersionsToggle instVersion kind st).state
              kind).filters)
    ∧ (handleModrinthShowAllVersionsToggle instVersion kind st).request.gameVersion
        = (if (((handleModrinthShowAllVersionsToggle instVersion kind st).state
              kind).filters).showAllVersions then "" else instVersion)
    ∧ (handleModrinthHideInstalledToggle instVersion kind st).request.extraFacets
        = buildModrinthFacets kind
            (((handleModrinthHideInstalledToggle instVersion kind st).state
              kind).filters)
    ∧ (∀ (k : ModrinthKind) (f : ModrinthFilters),
        (buildModrinthFacets k f).length = activeFacetDimCount k f)
    ∧ (∀ (k : ModrinthKind) (f : ModrinthFilters), f.categories ≠ [] →
        f.categories.map (fun item => "categories:" ++ item)
          ∈ buildModrinthFacets k f)
    ∧ (∀ f : ModrinthFilters, f.loaders ≠ [] →
        f.loaders.map (fun item => "categories:" ++ item)
          ∈ buildModrinthFacets ModrinthKind.mods f)
    ∧ (∀ (k : ModrinthKind) (f : ModrinthFilters),
        f.environments.client = true →
        ["client_side:required", "client_side:optional"]
          ∈ buildModrinthFacets k f)
    ∧ (∀ (k : ModrinthKind) (f : ModrinthFilters),
        f.environments.server = true →
        ["server_side:required", "server_side:optional"]
          ∈ buildModrinthFacets k f)
    ∧ (∀ (k : ModrinthKind) (f : ModrinthFilters), f.openSourceOnly = true →
        ["open_source:true"] ∈ buildModrinthFacets k f)
    ∧ ((st kind).filters.categories = [] →
        ["categories:" ++ value]
          ∈ (handleModrinthCategoryToggle instVersion kind value
              st).request.extraFacets)
    ∧ (searchSuccess kind (some r)
        (handleModrinthCategoryToggle instVersion kind value st).state
        kind).results = r := by
  have hcat : toggleFilterValue (st kind).filters.categories value
      = (st kind).filters.categories ++ [value] := by
    simp [toggleFilterValue, hv]
  have hmemCat : ∀ (k : ModrinthKind) (f : ModrinthFilters),
      f.categories ≠ [] →
      f.categories.map (fun item => "categories:" ++ item)
        ∈ buildModrinthFacets k f := by
    intro k f hne
    have hl : f.categories.length > 0 := List.length_pos.mpr hne
    unfold buildModrinthFacets
    simp only [List.mem_append, if_pos hl]
    exact Or.inl (Or.inl (Or.inl (Or.inl (List.mem_singleton.mpr rfl))))
  refine ⟨?_, ?_, ?_, ?_, ?_, ?_, ?_, ?_, ?_, hmemCat, ?_, ?_, ?_, ?_, ?_, ?_⟩
  · simp [handleModrinthCategoryToggle, updateKind, hcat]
  · simp [handleModrinthCategoryToggle, searchRequestOf, updateKind]
  · simp [handleModrinthLoaderToggle, searchRequestOf, updateKind]
  · simp [handleModrinthEnvironmentToggle, searchRequestOf, updateKind]
  · simp [handleModrinthOpenSourceToggle, searchRequestOf, updateKind]
  · simp [handleModrinthShowAllVersionsToggle, searchRequestOf, updateKind]
  · simp [handleModrinthShowAllVersionsToggle, searchRequestOf, updateKind]
  · simp [handleModrinthHideInstalledToggle, searchRequestOf, updateKind]
  · intro k f
    unfold buildModrinthFacets activeFacetDimCount
    split_ifs <;> simp
  · intro f hne
    have hl : f.loaders.length > 0 := List.length_pos.mpr hne
    unfold buildModrinthFacets
    rw [if_pos (⟨rfl, hl⟩ :
      ModrinthKind.mods = ModrinthKind.mods ∧ f.loaders.length > 0)]
    simp
  · intro k f hc
    unfold buildModrinthFacets
    simp only [List.mem_append, if_pos hc]
    exact Or.inl (Or.inl (Or.inr (List.mem_singleton.mpr rfl)))
  · intro k f hs
    unfold buildModrinthFacets
    simp only [List.mem_append, if_pos hs]
    exact Or.inl (Or.inr (List.mem_singleton.mpr rfl))
  · intro k f ho
    unfold buildModrinthFacets
    simp only [List.mem_append, if_pos ho]
    exact Or.inr (List.mem_singleton.mpr rfl)
  · intro hempty
    have hreq : (handleModrinthCategoryToggle instVersion kind value
        st).request.extraFacets
        = buildModrinthFacets kind { (st kind).filters with
            categories := toggleFilterValue (st kind).filters.categories value } := by
      simp [handleModrinthCategoryToggle, searchRequestOf]
    rw [hreq, hcat, hempty]
    exact hmemCat kind _ (by simp)
  · simp [searchSuccess, updateKind]

/-- Witness for C9 at the spec's scenario: toggling category "magic" on
a mods state with no categories selected. -/
theorem filter_toggle_issues_search_witness :
    ("magic" ∉ (((fun _ => ⟨"", [], false, none, ModrinthSort.downloads,
        ⟨[], [], false, ⟨false, false⟩, false, false⟩⟩) :
          ModrinthStateMap) ModrinthKind.mods).filters.categories)
    ∧ ["categories:" ++ "magic"]
        ∈ (handleModrinthCategoryToggle "1.20.1" ModrinthKind.mods "magic"
            (fun _ => ⟨"", [], false, none, ModrinthSort.downloads,
              ⟨[], [], false, ⟨false, false⟩, false, false⟩⟩)).request.extraFacets := by
  refine ⟨by decide, ?_⟩
  exact (filter_toggle_issues_search "1.20.1" "magic" ModrinthKind.mods
    EnvSide.client
    (fun _ => ⟨"", [], false, none, ModrinthSort.downloads,
      ⟨[], [], false, ⟨false, false⟩, false, false⟩⟩)
    [] (by decide)).2.2.2.2.2.2.2.2.2.2.2.2.2.2.1 rfl

/-! ### Instance-change reset of the overview orchestrator -/

/-- `buildDefaultFilters`: for the mods category a truthy instance
loader (fabric/forge, absent for other loaders) pre-selects itself. -/
def buildDefaultFilters (modrinthLoader : Option String)
    (kind : ModrinthKind) : ModrinthFilters :=
  { categories := []
    loaders := if kind = ModrinthKind.mods ∧ modrinthLoader.isSome then
        [modrinthLoader.getD ""] else []
    showAllVersions := false
    environments := ⟨false, false⟩
    openSourceOnly := false
    hideInstalled := false }

/-- The default per-category search state installed by the reset
effect. -/
def defaultCatState (modrinthLoader : Option String)
    (kind : ModrinthKind) : ModrinthCatState :=
  { query := ""
    results := []
    loading := false
    error := none
    sort := ModrinthSort.downloads
    filters := buildDefaultFilters modrinthLoader kind }

/-- The orchestrator state the reset effect touches (presentation
fields such as drafts and dialogs are elided). -/
structure OrchestratorState where
  modrinthState : ModrinthStateMap
  modrinthInstalled : ModrinthKind → List String
  modrinthBusy : BusyMap
  isRunning : Bool
  memoryUsage : Option Nat
  memoryHistory : List Nat

/-- The `useEffect` keyed on the instance: it restores all four
categories to defaults, empties the installed sets, clears the whole
busy map, and resets the telemetry view state. -/
def resetOnInstanceChange (modrinthLoader : Option String)
    (_s : OrchestratorState) : OrchestratorState :=
  { modrinthState := fun kind => defaultCatState modrinthLoader kind
    modrinthInstalled := fun _ => []
    modrinthBusy := emptyBusy
    isRunning := false
    memoryUsage := none
    memoryHistory := [] }

/-- C10: whatever the prior state — including one with a busy key held
by an in-flight install or uninstall — an instance change resets all
four categories to defaults, empties every installed set and the whole
busy map; the completion handler's subsequent `endOp` then removes an
absent key, a no-op. -/
theorem instance_change_resets_catalog (modrinthLoader : Option String)
    (s : OrchestratorState) (kind : ModrinthKind) (key : String) :
    (resetOnInstanceChange modrinthLoader s).modrinthBusy key = none
    ∧ (resetOnInstanceChange modrinthLoader s).modrinthInstalled kind = []
    ∧ (resetOnInstanceChange modrinthLoader s).modrinthState kind
        = defaultCatState modrinthLoader kind
    ∧ endOp (resetOnInstanceChange modrinthLoader s).modrinthBusy key
        = (resetOnInstanceChange modrinthLoader s).modrinthBusy
    ∧ (resetOnInstanceChange modrinthLoader s).memoryHistory = [] := by
  refine ⟨rfl, rfl, rfl, ?_, rfl⟩
  funext k
  simp [endOp, busyDelete, resetOnInstanceChange, emptyBusy]

end Monolith
